import Mathlib

/-!
Shallow embedding of the VibeTunnel web-client input path:
`src/web/src/client/components/session-view/input-manager.ts` and
`src/web/src/client/components/ime-input.ts`.

Side effects (transport sends, UI refresh requests, DOM event dispatch,
timer scheduling) are made explicit: each handler returns the updated
state together with a list of emitted effects.  Results of collaborator
code that is outside the embedded files (`isCopyPasteShortcut`,
`isIMEAllowedKey`, `websocketInputClient.sendInput`, the HTTP `fetch`)
are passed in as oracle parameters.
-/

namespace VibeTunnel

/-- Session status (`shared/types.ts`): `connecting | active | exited`. -/
inductive SessionStatus
  | connecting
  | active
  | exited
deriving DecidableEq, Repr

/-- The slice of `Session` used by the input manager. -/
structure Session where
  id : String
  status : SessionStatus
deriving DecidableEq, Repr

/-- The wire payload `{ text?: string; key?: string }` built by
`sendInput` / `sendInputText` / `sendControlSequence`. -/
structure InputPayload where
  text : Option String
  key : Option String
deriving DecidableEq, Repr

/-- A payload with exactly one of the two fields populated. -/
def InputPayload.exactlyOne (p : InputPayload) : Bool :=
  (p.text.isSome && p.key.isNone) || (p.text.isNone && p.key.isSome)

/-- Raw keyboard event descriptor: the fields of `KeyboardEvent`
read by the handlers. -/
structure KeyEvent where
  key : String
  ctrlKey : Bool
  altKey : Bool
  metaKey : Bool
  shiftKey : Bool
deriving DecidableEq, Repr

/-- Result of the HTTP fallback `fetch`: a response with a numeric
status code, or a thrown error. -/
inductive FetchResult
  | res (status : Nat)
  | thrown
deriving DecidableEq, Repr

/-- Observable effects of the input-manager methods. -/
inductive Effect
  | wsSend (p : InputPayload)
  | httpSend (p : InputPayload)
  | requestUpdate
  | reposition
  | consume
  | sendInputCall (s : String)
  | captureToggle (active : Bool)
deriving DecidableEq, Repr

/-- State of `InputManager`: the session reference, the feature flag, the
double-escape timestamp, the IME-proxy flags observed through
`imeInput?.isFocused()` / `imeInput?.isComposingText()` (false when the
proxy does not exist), whether callbacks are registered, the current
keyboard-capture flag, and the fire times of pending delayed
reposition timers scheduled by `refreshIMEPosition`. -/
structure MgrState where
  session : Option Session
  hasCallbacks : Bool
  captureActive : Bool
  useWebSocketInput : Bool
  lastEscapeTime : Nat
  imeFocused : Bool
  imeComposing : Bool
  pendingReposition : List Nat
deriving DecidableEq, Repr

/-- Extract the payloads sent over the WebSocket transport. -/
def wsPayloads (effs : List Effect) : List InputPayload :=
  effs.filterMap fun e =>
    match e with
    | .wsSend p => some p
    | _ => none

/-- Extract the payloads sent over the HTTP fallback transport. -/
def httpPayloads (effs : List Effect) : List InputPayload :=
  effs.filterMap fun e =>
    match e with
    | .httpSend p => some p
    | _ => none

/-- Payloads delivered over either transport, in emission order. -/
def transportPayloads (effs : List Effect) : List InputPayload :=
  effs.filterMap fun e =>
    match e with
    | .wsSend p => some p
    | .httpSend p => some p
    | _ => none

/-- Count of `requestUpdate` (UI refresh) effects. -/
def updateCount (effs : List Effect) : Nat :=
  (effs.filter fun e => e = Effect.requestUpdate).length

/-- Count of capture-toggle notifications. -/
def toggleCount (effs : List Effect) : Nat :=
  (effs.filter fun e =>
    match e with
    | .captureToggle _ => true
    | _ => false).length

/-- The strings passed to `this.sendInput(...)` by the keyboard handler. -/
def sendInputCalls (effs : List Effect) : List String :=
  effs.filterMap fun e =>
    match e with
    | .sendInputCall s => some s
    | _ => none

/-- Model of `sendInputInternal(input, errorContext)` (input-manager.ts lines
353-411): no-op without a session; otherwise try the WebSocket when the
feature flag is on, and if it does not accept, issue one HTTP fallback
request and interpret its result (`2xx` accepted; status exactly 400
sets `session.status = 'exited'` and requests a UI update when
callbacks are registered; any other status or a thrown error is only
logged). -/
def sendInputInternal (st : MgrState) (input : InputPayload)
    (wsAccept : Bool) (fetchRes : FetchResult) : MgrState × List Effect :=
  match st.session with
  | none => (st, [])
  | some s =>
    if st.useWebSocketInput && wsAccept then
      (st, [.wsSend input])
    else
      match fetchRes with
      | .res status =>
        if 200 ≤ status ∧ status < 300 then
          (st, [.httpSend input])
        else if status = 400 then
          let st' := { st with session := some { s with status := .exited } }
          if st.hasCallbacks then
            (st', [.httpSend input, .requestUpdate])
          else
            (st', [.httpSend input])
        else
          (st, [.httpSend input])
      | .thrown => (st, [.httpSend input])

/-- Model of `refreshIMEPosition()` (lines 478-490): when the IME proxy is
focused, one immediate reposition plus one `setTimeout` scheduled 50 ms
from now; otherwise nothing. -/
def refreshIMEPosition (st : MgrState) (now : Nat) : MgrState × List Effect :=
  if st.imeFocused then
    ({ st with pendingReposition := st.pendingReposition ++ [now + 50] },
     [.reposition])
  else
    (st, [])

/-- Delayed repositions still pending at time `t` (scheduled but not
yet fired). -/
def pendingAt (st : MgrState) (t : Nat) : Nat :=
  (st.pendingReposition.filter fun fire => t < fire).length

/-- Model of `sendInputText(text)` (lines 413-427): always a `{ text }` payload,
then `refreshIMEPosition`. -/
def sendInputText (st : MgrState) (text : String)
    (wsAccept : Bool) (fetchRes : FetchResult) (now : Nat) :
    MgrState × List Effect :=
  let r := sendInputInternal st ⟨some text, none⟩ wsAccept fetchRes
  let r' := refreshIMEPosition r.1 now
  (r'.1, r.2 ++ r'.2)

/-- The `specialKeys` list of `sendInput` (lines 440-469). -/
def specialKeys : List String :=
  ["enter", "escape", "backspace", "tab", "shift_tab",
   "arrow_up", "arrow_down", "arrow_left", "arrow_right",
   "ctrl_enter", "shift_enter", "page_up", "page_down",
   "home", "end", "delete",
   "f1", "f2", "f3", "f4", "f5", "f6", "f7", "f8", "f9", "f10", "f11", "f12"]

/-- The payload classification of `sendInput` (line 471): a string in
`specialKeys` becomes `{ key }`, anything else `{ text }`. -/
def classifyInput (s : String) : InputPayload :=
  if specialKeys.contains s then ⟨none, some s⟩ else ⟨some s, none⟩

/-- Model of `sendInput(inputText)` (lines 438-476): classify, send, reposition. -/
def sendInput (st : MgrState) (inputText : String)
    (wsAccept : Bool) (fetchRes : FetchResult) (now : Nat) :
    MgrState × List Effect :=
  let r := sendInputInternal st (classifyInput inputText) wsAccept fetchRes
  let r' := refreshIMEPosition r.1 now
  (r'.1, r.2 ++ r'.2)

/-- The `switch (key)` of `handleKeyboardInput` (lines 259-338),
without the Escape case (handled separately because it mutates state):
`none` means the handler returns without sending. -/
def switchInput (ev : KeyEvent) : Option String :=
  if ev.key = "Enter" then
    some (if ev.ctrlKey then "ctrl_enter"
          else if ev.shiftKey then "shift_enter" else "enter")
  else if ev.key = "ArrowUp" then some "arrow_up"
  else if ev.key = "ArrowDown" then some "arrow_down"
  else if ev.key = "ArrowLeft" then some "arrow_left"
  else if ev.key = "ArrowRight" then some "arrow_right"
  else if ev.key = "Tab" then some (if ev.shiftKey then "shift_tab" else "tab")
  else if ev.key = "Backspace" then some "backspace"
  else if ev.key = "Delete" then some "delete"
  else if ev.key = " " then some " "
  else if ev.key.length = 1 then some ev.key
  else none

/-- The Ctrl-combination override (lines 341-347): with Ctrl held, a
one-character key other than Enter whose lowercase code is in 97..122
replaces the pending input with the control character `code - 96`. -/
def ctrlOverride (ev : KeyEvent) (inputText : String) : String :=
  if ev.ctrlKey ∧ ev.key.length = 1 ∧ ev.key ≠ "Enter" then
    match ev.key.toList with
    | [c] =>
      let n := c.toLower.toNat
      if 97 ≤ n ∧ n ≤ 122 then String.mk [Char.ofNat (n - 96)] else inputText
    | _ => inputText
  else inputText

/-- The double-escape threshold (line 34): 500 ms. -/
def DOUBLE_ESCAPE_THRESHOLD : Nat := 500

/-- Model of `handleKeyboardInput(e)` (lines 200-351).  `isCopyPaste` and
`imeAllowed` are the oracle results of `isCopyPasteShortcut(e)` and
`isIMEAllowedKey(e)` (collaborator code outside the embedded files);
`now` is `Date.now()`.  Emits `sendInputCall s` for each
`await this.sendInput(s)`. -/
def handleKeyboardInput (st : MgrState) (ev : KeyEvent)
    (isCopyPaste imeAllowed : Bool) (now : Nat) : MgrState × List Effect :=
  match st.session with
  | none => (st, [])
  | some s =>
    if st.imeFocused ∧ ¬imeAllowed then (st, [])
    else if st.imeComposing then (st, [])
    else if ev.key = "Escape" ∧ s.status = .exited then (st, [])
    else if s.status = .exited then (st, [])
    else if isCopyPaste then (st, [])
    else if ev.altKey ∧ ¬ev.ctrlKey ∧ ¬ev.metaKey ∧ ¬ev.shiftKey ∧
            ev.key = "ArrowLeft" then
      (st, [.consume, .sendInputCall "\u001Bb"])
    else if ev.altKey ∧ ¬ev.ctrlKey ∧ ¬ev.metaKey ∧ ¬ev.shiftKey ∧
            ev.key = "ArrowRight" then
      (st, [.consume, .sendInputCall "\u001Bf"])
    else if ev.altKey ∧ ¬ev.ctrlKey ∧ ¬ev.metaKey ∧ ¬ev.shiftKey ∧
            ev.key = "Backspace" then
      (st, [.consume, .sendInputCall "\u0017"])
    else if ev.key = "Escape" then
      if now - st.lastEscapeTime < DOUBLE_ESCAPE_THRESHOLD then
        ({ st with lastEscapeTime := 0 },
         if st.hasCallbacks then [.captureToggle (!st.captureActive)] else [])
      else
        ({ st with lastEscapeTime := now },
         [.sendInputCall (ctrlOverride ev "escape")])
    else
      match switchInput ev with
      | none => (st, [])
      | some t => (st, [.sendInputCall (ctrlOverride ev t)])

end VibeTunnel

namespace VibeTunnel.IME

/-- State of `DesktopIMEInput`: the composition flag and the hidden
input element's `value`. -/
structure IMEState where
  isComposing : Bool
  value : String
deriving DecidableEq, Repr

/-- Emissions of the IME component: `onTextInput` / `onSpecialKey`
callback invocations. -/
inductive Emission
  | textInput (s : String)
  | specialKey (k : String)
deriving DecidableEq, Repr

/-- Model of `handleCompositionEnd` (ime-input.ts lines 204-233): clear the
composition flag, emit the finalized text once when non-empty (a
logged warning otherwise), and clear the input value. -/
def handleCompositionEnd (st : IMEState) (data : String) :
    IMEState × List Emission :=
  let out := if data ≠ "" then [Emission.textInput data] else []
  ({ isComposing := false, value := "" }, out)

/-- Model of `handleKeydown` (lines 266-333).  Returns the new state, the
emissions, and whether `preventDefault` was called.  `hasOnSpecialKey`
models the presence of the optional `onSpecialKey` callback. -/
def handleKeydown (st : IMEState) (ev : VibeTunnel.KeyEvent)
    (hasOnSpecialKey : Bool) : IMEState × List Emission × Bool :=
  if (ev.metaKey ∨ ev.ctrlKey) ∧ ev.key = "v" then (st, [], false)
  else if st.isComposing then (st, [], false)
  else if ¬hasOnSpecialKey then (st, [], false)
  else if ev.key = "Enter" then
    if st.value.trim ≠ "" then
      ({ st with value := "" }, [.textInput st.value], true)
    else
      (st, [.specialKey "enter"], true)
  else if ev.key = "Backspace" then
    if st.value = "" then (st, [.specialKey "backspace"], true)
    else (st, [], false)
  else if ev.key = "Tab" then
    (st, [.specialKey (if ev.shiftKey then "shift_tab" else "tab")], true)
  else if ev.key = "Escape" then (st, [.specialKey "escape"], true)
  else if ev.key = "ArrowUp" then (st, [.specialKey "arrow_up"], true)
  else if ev.key = "ArrowDown" then (st, [.specialKey "arrow_down"], true)
  else if ev.key = "ArrowLeft" then
    if st.value = "" then (st, [.specialKey "arrow_left"], true)
    else (st, [], false)
  else if ev.key = "ArrowRight" then
    if st.value = "" then (st, [.specialKey "arrow_right"], true)
    else (st, [], false)
  else if ev.key = "Delete" then (st, [.specialKey "delete"], true)
  else (st, [], false)

/-- Model of `handlePaste` (lines 335-342): `clip` is
`e.clipboardData?.getData('text')` (`none` when `clipboardData` is
absent).  Emits the text and calls `preventDefault` only when the
pasted text is truthy (non-empty). -/
def handlePaste (st : IMEState) (clip : Option String) :
    IMEState × List Emission × Bool :=
  match clip with
  | some s =>
    if s ≠ "" then ({ st with value := "" }, [.textInput s], true)
    else (st, [], false)
  | none => (st, [], false)

/-- The document-level `globalPasteHandler` (lines 150-175):
skipped when the event targets the IME input itself or a form-like
element; otherwise same truthiness-guarded emission. -/
def globalPasteHandler (targetIsIMEInput targetIsFormLike : Bool)
    (clip : Option String) : List Emission × Bool :=
  if targetIsIMEInput then ([], false)
  else if targetIsFormLike then ([], false)
  else
    match clip with
    | some s => if s ≠ "" then ([.textInput s], true) else ([], false)
    | none => ([], false)

end VibeTunnel.IME

namespace VibeTunnel

/-! ## Shared helper lemmas and concrete states -/

/-- A live session with WebSocket input enabled, used as a concrete
scenario in witnesses. -/
def stWS : MgrState :=
  ⟨some ⟨"s1", .active⟩, true, true, true, 0, false, false, []⟩

/-- A live session with WebSocket input disabled (HTTP fallback only). -/
def stHTTP : MgrState :=
  ⟨some ⟨"s1", .active⟩, true, true, false, 0, false, false, []⟩

/-- An exited session. -/
def stExited : MgrState :=
  ⟨some ⟨"s1", .exited⟩, true, true, false, 0, false, false, []⟩

/-- An unmodified Escape key event. -/
def escapeEvent : KeyEvent := ⟨"Escape", false, false, false, false⟩

theorem transportPayloads_append (a b : List Effect) :
    transportPayloads (a ++ b) = transportPayloads a ++ transportPayloads b := by
  simp [transportPayloads]

theorem refreshIMEPosition_no_transport (st : MgrState) (now : Nat) :
    transportPayloads (refreshIMEPosition st now).2 = [] := by
  unfold refreshIMEPosition
  split <;> simp [transportPayloads]

theorem sendInputInternal_payloads (st : MgrState) (input : InputPayload)
    (wsAccept : Bool) (fetchRes : FetchResult) (sess : Session)
    (h : st.session = some sess) :
    transportPayloads (sendInputInternal st input wsAccept fetchRes).2 = [input] := by
  unfold sendInputInternal
  rw [h]
  by_cases hws : (st.useWebSocketInput && wsAccept) = true
  · simp [hws, transportPayloads]
  · dsimp only
    rw [if_neg hws]
    cases fetchRes with
    | res status =>
      by_cases h1 : 200 ≤ status ∧ status < 300
      · simp [h1, transportPayloads]
      · by_cases h2 : status = 400
        · by_cases h3 : st.hasCallbacks <;> simp [h1, h2, h3, transportPayloads]
        · simp [h1, h2, transportPayloads]
    | thrown => simp [transportPayloads]

theorem sendInputText_payloads (st : MgrState) (text : String)
    (wsAccept : Bool) (fetchRes : FetchResult) (now : Nat) (sess : Session)
    (h : st.session = some sess) :
    transportPayloads (sendInputText st text wsAccept fetchRes now).2 =
      [⟨some text, none⟩] := by
  unfold sendInputText
  simp only [transportPayloads_append, refreshIMEPosition_no_transport,
    List.append_nil]
  exact sendInputInternal_payloads st ⟨some text, none⟩ wsAccept fetchRes sess h

/-! ## C4 -/

/-- C4: a composition-end event with non-empty finalized text emits
exactly one `Text` delivery; empty text emits nothing; in both cases
the proxy buffer (`input.value`) is cleared and the composing flag
becomes false. -/
theorem composition_end_spec (st : IME.IMEState) (data : String) :
    (IME.handleCompositionEnd st data).1.isComposing = false ∧
    (IME.handleCompositionEnd st data).1.value = "" ∧
    (data ≠ "" → (IME.handleCompositionEnd st data).2 = [.textInput data]) ∧
    (data = "" → (IME.handleCompositionEnd st data).2 = []) := by
  refine ⟨rfl, rfl, ?_, ?_⟩ <;> intro h <;> simp [IME.handleCompositionEnd, h]

/-- C4 witness: a concrete composition ending in "你好", and one ending
empty. -/
theorem composition_end_spec_witness :
    (IME.handleCompositionEnd ⟨true, "x"⟩ "你好").2 = [.textInput "你好"] ∧
    (IME.handleCompositionEnd ⟨true, "y"⟩ "").2 = [] ∧
    (IME.handleCompositionEnd ⟨true, "x"⟩ "你好").1.isComposing = false :=
  ⟨(composition_end_spec ⟨true, "x"⟩ "你好").2.2.1 (by decide),
   (composition_end_spec ⟨true, "y"⟩ "").2.2.2 rfl,
   (composition_end_spec ⟨true, "x"⟩ "你好").1⟩

/-! ## C8 -/

/-- C8 counterexample: a paste event whose clipboard text is the empty
string yields zero deliveries and does not suppress default handling,
refuting "for every paste event, exactly one Text delivery is emitted
and the default is suppressed exactly once". -/
theorem paste_empty_clipboard :
    ¬ ((IME.handlePaste ⟨false, "abc"⟩ (some "")).2.1.length = 1 ∧
       (IME.handlePaste ⟨false, "abc"⟩ (some "")).2.2 = true) := by
  decide

/-- C8 amended: for every paste event carrying non-empty clipboard
text, exactly one `Text` delivery is emitted and the default is
suppressed exactly once, regardless of the composition state; the same
holds for the document-level paste handler when the event does not
target the IME input or a form-like element. -/
theorem paste_delivery_policy (st : IME.IMEState) (s : String) (h : s ≠ "") :
    IME.handlePaste st (some s) = ({ st with value := "" }, [.textInput s], true) ∧
    IME.globalPasteHandler false false (some s) = ([.textInput s], true) := by
  constructor <;> simp [IME.handlePaste, IME.globalPasteHandler, h]

/-- C8 witness: pasting "hello" while composition is active. -/
theorem paste_delivery_policy_witness :
    IME.handlePaste ⟨true, "x"⟩ (some "hello") =
      (⟨true, ""⟩, [.textInput "hello"], true) ∧
    IME.globalPasteHandler false false (some "hello") =
      ([.textInput "hello"], true) :=
  paste_delivery_policy ⟨true, "x"⟩ "hello" (by decide)

/-! ## C9 -/

/-- A live session whose IME proxy currently has focus. -/
def stFocused : MgrState :=
  ⟨some ⟨"s1", .active⟩, true, true, true, 0, true, false, []⟩

/-- C9 counterexample: two sends completing at times 0 and 10 (within
50 ms of each other) leave two delayed repositions pending at time 10,
refuting "rapid consecutive sends collapse to at most one pending
delayed reposition at any time". -/
theorem reposition_not_debounced :
    pendingAt (refreshIMEPosition (refreshIMEPosition stFocused 0).1 10).1 10 = 2 ∧
    ¬ pendingAt (refreshIMEPosition (refreshIMEPosition stFocused 0).1 10).1 10 ≤ 1 := by
  decide

/-- C9 amended: after a send completes while the proxy has focus, one
immediate reposition is triggered and one delayed reposition is
scheduled 50 ms later; each consecutive send appends its own delayed
reposition (timers are independent, not coalesced); without focus
nothing is triggered. -/
theorem reposition_policy (st : MgrState) (now : Nat) :
    (st.imeFocused = true →
      refreshIMEPosition st now =
        ({ st with pendingReposition := st.pendingReposition ++ [now + 50] },
         [.reposition])) ∧
    (st.imeFocused = false → refreshIMEPosition st now = (st, [])) := by
  constructor <;> intro h <;> simp [refreshIMEPosition, h]

/-- C9 witness: one focused send at time 100 schedules a timer at 150;
an unfocused send does nothing. -/
theorem reposition_policy_witness :
    refreshIMEPosition stFocused 100 =
      ({ stFocused with pendingReposition := stFocused.pendingReposition ++ [150] },
       [.reposition]) ∧
    refreshIMEPosition stHTTP 100 = (stHTTP, []) :=
  ⟨(reposition_policy stFocused 100).1 rfl,
   (reposition_policy stHTTP 100).2 rfl⟩

/-! ## C10 -/

/-- C10: text arriving through `sendInputText` is always delivered as a
`{text}` payload, for every string including special-key token names;
`classifyInput` (the `sendInput` path) produces a `{key}` payload
exactly when the string is in the fixed special-key list and a `{text}`
payload otherwise; every payload built this way has exactly one field
populated. -/
theorem payload_shape_spec (s : String) :
    (∀ st sess wsAccept fetchRes now, st.session = some sess →
      transportPayloads (sendInputText st s wsAccept fetchRes now).2 =
        [⟨some s, none⟩]) ∧
    ((classifyInput s).key = some s ↔ s ∈ specialKeys) ∧
    ((classifyInput s).text = some s ↔ s ∉ specialKeys) ∧
    (classifyInput s).exactlyOne = true ∧
    InputPayload.exactlyOne ⟨some s, none⟩ = true := by
  refine ⟨fun st sess wsAccept fetchRes now h =>
    sendInputText_payloads st s wsAccept fetchRes now sess h, ?_, ?_, ?_, rfl⟩ <;>
    by_cases hc : s ∈ specialKeys <;>
    simp [classifyInput, hc, InputPayload.exactlyOne]

/-- C10 witness: the string "enter" goes out as `{text: "enter"}` on
the text path but as `{key: "enter"}` on the `sendInput` path. -/
theorem payload_shape_spec_witness :
    transportPayloads (sendInputText stWS "enter" true (.res 200) 0).2 =
      [⟨some "enter", none⟩] ∧
    (classifyInput "enter").key = some "enter" :=
  ⟨(payload_shape_spec "enter").1 stWS ⟨"s1", .active⟩ true (.res 200) 0 rfl,
   (payload_shape_spec "enter").2.1.mpr (by decide)⟩

end VibeTunnel

namespace VibeTunnel

/-! ## C2 -/

/-- C2: per send of a resolved input, exactly one transport is used:
when the WebSocket accepts the payload (boolean acceptance true) zero
fallback requests are issued; otherwise exactly one fallback request is
issued carrying the identical payload — never both transports. -/
theorem transport_exclusivity (st : MgrState) (sess : Session)
    (input : InputPayload) (wsAccept : Bool) (fetchRes : FetchResult)
    (h : st.session = some sess) :
    ((st.useWebSocketInput && wsAccept) = true →
      wsPayloads (sendInputInternal st input wsAccept fetchRes).2 = [input] ∧
      httpPayloads (sendInputInternal st input wsAccept fetchRes).2 = []) ∧
    ((st.useWebSocketInput && wsAccept) = false →
      wsPayloads (sendInputInternal st input wsAccept fetchRes).2 = [] ∧
      httpPayloads (sendInputInternal st input wsAccept fetchRes).2 = [input]) := by
  constructor <;> intro hws <;> unfold sendInputInternal <;> rw [h] <;> dsimp only
  · simp [hws, wsPayloads, httpPayloads]
  · rw [if_neg (by simp [hws])]
    cases fetchRes with
    | res status =>
      by_cases h1 : 200 ≤ status ∧ status < 300
      · simp [h1, wsPayloads, httpPayloads]
      · by_cases h2 : status = 400
        · by_cases h3 : st.hasCallbacks <;>
            simp [h1, h2, h3, wsPayloads, httpPayloads]
        · simp [h1, h2, wsPayloads, httpPayloads]
    | thrown => simp [wsPayloads, httpPayloads]

/-- C2 witness: with the WebSocket accepting, only a WebSocket send;
with it rejecting, only one HTTP fallback send of the same payload. -/
theorem transport_exclusivity_witness :
    (wsPayloads (sendInputInternal stWS ⟨some "a", none⟩ true (.res 200)).2 =
       [⟨some "a", none⟩] ∧
     httpPayloads (sendInputInternal stWS ⟨some "a", none⟩ true (.res 200)).2 = []) ∧
    (wsPayloads (sendInputInternal stWS ⟨some "a", none⟩ false (.res 200)).2 = [] ∧
     httpPayloads (sendInputInternal stWS ⟨some "a", none⟩ false (.res 200)).2 =
       [⟨some "a", none⟩]) :=
  ⟨(transport_exclusivity stWS ⟨"s1", .active⟩ ⟨some "a", none⟩ true
      (.res 200) rfl).1 rfl,
   (transport_exclusivity stWS ⟨"s1", .active⟩ ⟨some "a", none⟩ false
      (.res 200) rfl).2 rfl⟩

/-! ## C3 -/

/-- C3 counterexample: a 404 response — a 400-class status — leaves the
session state unchanged and requests zero UI refreshes, refuting "any
4xx response sets `Session.status = 'exited'` and requests exactly one
UI refresh" (the code tests `status === 400` exactly). -/
theorem fallback_404_not_exited :
    (sendInputInternal stHTTP ⟨some "a", none⟩ false (.res 404)).1 = stHTTP ∧
    updateCount (sendInputInternal stHTTP ⟨some "a", none⟩ false (.res 404)).2 = 0 := by
  decide

/-- C3 amended: for a fallback result with callbacks registered: a 2xx
response is accepted with no state change; a response with status
exactly 400 sets the session status to `exited` and requests exactly
one UI refresh; any other status, or a thrown error, changes nothing
and retries nothing. -/
theorem fallback_result_policy (st : MgrState) (sess : Session)
    (input : InputPayload) (wsAccept : Bool) (status : Nat)
    (h : st.session = some sess)
    (hws : (st.useWebSocketInput && wsAccept) = false)
    (hcb : st.hasCallbacks = true) :
    ((200 ≤ status ∧ status < 300) →
      sendInputInternal st input wsAccept (.res status) =
        (st, [.httpSend input])) ∧
    (status = 400 →
      sendInputInternal st input wsAccept (.res status) =
        ({ st with session := some { sess with status := .exited } },
         [.httpSend input, .requestUpdate])) ∧
    (¬ (200 ≤ status ∧ status < 300) → status ≠ 400 →
      sendInputInternal st input wsAccept (.res status) =
        (st, [.httpSend input])) ∧
    sendInputInternal st input wsAccept .thrown = (st, [.httpSend input]) := by
  refine ⟨?_, ?_, ?_, ?_⟩
  · intro h1
    unfold sendInputInternal; rw [h]; dsimp only; simp [hws, h1]
  · intro h2
    subst h2
    unfold sendInputInternal; rw [h]; dsimp only; simp [hws, hcb]
  · intro h1 h2
    unfold sendInputInternal; rw [h]; dsimp only; simp [hws, h1, h2]
  · unfold sendInputInternal; rw [h]; dsimp only; simp [hws]

/-- C3 witness: concrete fallback results 200, 400, 500 and a thrown
error against a live session. -/
theorem fallback_result_policy_witness :
    sendInputInternal stHTTP ⟨some "a", none⟩ false (.res 200) =
      (stHTTP, [.httpSend ⟨some "a", none⟩]) ∧
    sendInputInternal stHTTP ⟨some "a", none⟩ false (.res 400) =
      ({ stHTTP with session := some ⟨"s1", .exited⟩ },
       [.httpSend ⟨some "a", none⟩, .requestUpdate]) ∧
    sendInputInternal stHTTP ⟨some "a", none⟩ false (.res 500) =
      (stHTTP, [.httpSend ⟨some "a", none⟩]) ∧
    sendInputInternal stHTTP ⟨some "a", none⟩ false .thrown =
      (stHTTP, [.httpSend ⟨some "a", none⟩]) :=
  ⟨(fallback_result_policy stHTTP ⟨"s1", .active⟩ ⟨some "a", none⟩ false 200
      rfl rfl rfl).1 (by decide),
   (fallback_result_policy stHTTP ⟨"s1", .active⟩ ⟨some "a", none⟩ false 400
      rfl rfl rfl).2.1 rfl,
   (fallback_result_policy stHTTP ⟨"s1", .active⟩ ⟨some "a", none⟩ false 500
      rfl rfl rfl).2.2.1 (by decide) (by decide),
   (fallback_result_policy stHTTP ⟨"s1", .active⟩ ⟨some "a", none⟩ false 999
      rfl rfl rfl).2.2.2⟩

/-! ## C1 -/

/-- C1 counterexample: for an exited session, a send attempt on the
IME-text / paste path (`sendInputText`) is not a no-op — it still
issues a transport request carrying the text. -/
theorem exited_text_path_sends :
    transportPayloads (sendInputText stExited "a" false (.res 200) 0).2 =
      [⟨some "a", none⟩] := by
  decide

/-- C1 amended: only the keyboard path guards on `status = 'exited'`:
`handleKeyboardInput` is a complete no-op for an exited session, while
`sendInputText` (the IME-composition and paste path) does not check the
status and still delivers exactly one payload over a transport. -/
theorem exited_session_send_policy (st : MgrState) (sess : Session)
    (h : st.session = some sess) (hex : sess.status = .exited) :
    (∀ ev isCopyPaste imeAllowed now,
      handleKeyboardInput st ev isCopyPaste imeAllowed now = (st, [])) ∧
    (∀ text wsAccept fetchRes now,
      transportPayloads (sendInputText st text wsAccept fetchRes now).2 =
        [⟨some text, none⟩]) := by
  constructor
  · intro ev isCopyPaste imeAllowed now
    unfold handleKeyboardInput
    rw [h]
    dsimp only
    split_ifs <;> simp_all
  · intro text wsAccept fetchRes now
    exact sendInputText_payloads st text wsAccept fetchRes now sess h

/-- C1 witness: a concrete exited session — the keyboard handler does
nothing, the text path still sends. -/
theorem exited_session_send_policy_witness :
    handleKeyboardInput stExited ⟨"a", false, false, false, false⟩ false true 5 =
      (stExited, []) ∧
    transportPayloads (sendInputText stExited "x" false (.res 200) 0).2 =
      [⟨some "x", none⟩] :=
  ⟨(exited_session_send_policy stExited ⟨"s1", .exited⟩ rfl rfl).1
      ⟨"a", false, false, false, false⟩ false true 5,
   (exited_session_send_policy stExited ⟨"s1", .exited⟩ rfl rfl).2
      "x" false (.res 200) 0⟩

/-! ## C5 -/

/-- A live session whose IME proxy is currently composing. -/
def stComposing : MgrState :=
  ⟨some ⟨"s1", .active⟩, true, true, true, 0, false, true, []⟩

/-- C5: while the composing flag is true, the IME proxy's keydown
handler returns without emitting anything and without touching the
event (recognized copy/paste combinations pass through untouched as
well), and the session-view keyboard handler returns without mapping
or sending. -/
theorem composing_blocks_keydown (stI : IME.IMEState) (st : MgrState)
    (ev : KeyEvent) (hasOnSpecialKey isCopyPaste imeAllowed : Bool) (now : Nat)
    (hI : stI.isComposing = true) (hM : st.imeComposing = true) :
    IME.handleKeydown stI ev hasOnSpecialKey = (stI, [], false) ∧
    handleKeyboardInput st ev isCopyPaste imeAllowed now = (st, []) := by
  constructor
  · unfold IME.handleKeydown
    rw [hI]
    by_cases hv : (ev.metaKey ∨ ev.ctrlKey) ∧ ev.key = "v" <;> simp [hv]
  · unfold handleKeyboardInput
    cases hs : st.session with
    | none => rfl
    | some s =>
      dsimp only
      rw [hM]
      by_cases h1 : st.imeFocused ∧ ¬imeAllowed <;> simp [h1]

/-- C5 witness: an Enter keydown while composing is fully ignored by
both handlers. -/
theorem composing_blocks_keydown_witness :
    IME.handleKeydown ⟨true, "ab"⟩ ⟨"Enter", false, false, false, false⟩ true =
      (⟨true, "ab"⟩, [], false) ∧
    handleKeyboardInput stComposing ⟨"Enter", false, false, false, false⟩
        false true 0 = (stComposing, []) :=
  composing_blocks_keydown ⟨true, "ab"⟩ stComposing
    ⟨"Enter", false, false, false, false⟩ true false true 0 rfl rfl

end VibeTunnel

namespace VibeTunnel

/-! ## C6 -/

/-- C6: two unmodified Escape presses within 500 ms yield exactly one
capture-toggle notification and zero escape deliveries for the second
press, and the timer is reset to 0 so a third rapid Escape is forwarded
as a fresh single escape instead of re-triggering the toggle; an Escape
arriving 500 ms or more after the recorded time is forwarded as a fresh
single `escape` with its timestamp recorded. -/
theorem double_escape_policy (st : MgrState) (sess : Session)
    (t₁ t₂ t₃ : Nat)
    (hs : st.session = some sess) (hex : sess.status ≠ .exited)
    (hf : st.imeFocused = false) (hc : st.imeComposing = false)
    (hcb : st.hasCallbacks = true)
    (hfresh : ¬ t₁ - st.lastEscapeTime < 500)
    (hrapid : t₂ - t₁ < 500) (hlate : ¬ t₃ < 500) :
    handleKeyboardInput st escapeEvent false true t₁ =
      ({ st with lastEscapeTime := t₁ }, [.sendInputCall "escape"]) ∧
    handleKeyboardInput { st with lastEscapeTime := t₁ } escapeEvent false true t₂ =
      ({ st with lastEscapeTime := 0 }, [.captureToggle (!st.captureActive)]) ∧
    handleKeyboardInput { st with lastEscapeTime := 0 } escapeEvent false true t₃ =
      ({ st with lastEscapeTime := t₃ }, [.sendInputCall "escape"]) := by
  refine ⟨?_, ?_, ?_⟩ <;>
    simp [handleKeyboardInput, escapeEvent, ctrlOverride,
      DOUBLE_ESCAPE_THRESHOLD, hs, hex, hf, hc, hcb, hfresh, hrapid, hlate]

/-- C6 witness: presses at 1000 ms, 1200 ms (rapid: one toggle, no
escape) and 1400 ms (rapid after the toggle: fresh escape, no
re-trigger). -/
theorem double_escape_policy_witness :
    handleKeyboardInput stWS escapeEvent false true 1000 =
      ({ stWS with lastEscapeTime := 1000 }, [.sendInputCall "escape"]) ∧
    handleKeyboardInput { stWS with lastEscapeTime := 1000 } escapeEvent
        false true 1200 =
      ({ stWS with lastEscapeTime := 0 }, [.captureToggle (!stWS.captureActive)]) ∧
    handleKeyboardInput { stWS with lastEscapeTime := 0 } escapeEvent
        false true 1400 =
      ({ stWS with lastEscapeTime := 1400 }, [.sendInputCall "escape"]) :=
  double_escape_policy stWS ⟨"s1", .active⟩ 1000 1200 1400 rfl (by decide)
    rfl rfl rfl (by decide) (by decide) (by decide)

/-! ## C7 -/

theorem handleKeyboardInput_plain (st : MgrState) (sess : Session)
    (ev : KeyEvent) (hs : st.session = some sess)
    (hex : sess.status ≠ .exited) (hf : st.imeFocused = false)
    (hc : st.imeComposing = false) (halt : ev.altKey = false)
    (hkey : ev.key ≠ "Escape") (now : Nat) :
    handleKeyboardInput st ev false true now =
      (st, match switchInput ev with
           | none => []
           | some t => [.sendInputCall (ctrlOverride ev t)]) := by
  unfold handleKeyboardInput
  rw [hs]
  dsimp only
  simp [hex, hf, hc, halt, hkey]
  cases switchInput ev <;> rfl

/-- C7: for a keydown of Ctrl plus a single letter a..z (key codes
97..122) with no other modifiers and composition inactive, the handler
sends the literal control character chr(1)..chr(26), which the
`sendInput` classification delivers as a `{text}` payload; Ctrl+Enter
is resolved earlier to the `ctrl_enter` key token; recognized
copy/paste combinations pass through untouched. -/
theorem ctrl_letter_mapping (st : MgrState) (sess : Session) (n now : Nat)
    (hs : st.session = some sess) (hex : sess.status ≠ .exited)
    (hf : st.imeFocused = false) (hc : st.imeComposing = false)
    (hlo : 97 ≤ n) (hhi : n ≤ 122) :
    (handleKeyboardInput st ⟨String.mk [Char.ofNat n], true, false, false, false⟩
        false true now).2 =
      [.sendInputCall (String.mk [Char.ofNat (n - 96)])] ∧
    classifyInput (String.mk [Char.ofNat (n - 96)]) =
      ⟨some (String.mk [Char.ofNat (n - 96)]), none⟩ ∧
    (handleKeyboardInput st ⟨"Enter", true, false, false, false⟩
        false true now).2 =
      [.sendInputCall "ctrl_enter"] ∧
    (∀ ev, handleKeyboardInput st ev true true now = (st, [])) := by
  refine ⟨?_, ?_, ?_, ?_⟩
  · interval_cases n <;>
      (rw [handleKeyboardInput_plain st sess _ hs hex hf hc rfl (by decide) now];
       dsimp only; decide)
  · interval_cases n <;> decide
  · rw [handleKeyboardInput_plain st sess _ hs hex hf hc rfl (by decide) now]
    dsimp only
    decide
  · intro ev
    unfold handleKeyboardInput
    rw [hs]
    dsimp only
    simp [hex, hf, hc]

/-- C7 witness: Ctrl+A maps to chr(1) as literal text. -/
theorem ctrl_letter_mapping_witness :
    (handleKeyboardInput stWS ⟨String.mk [Char.ofNat 97], true, false, false, false⟩
        false true 0).2 =
      [.sendInputCall (String.mk [Char.ofNat 1])] ∧
    classifyInput (String.mk [Char.ofNat 1]) =
      ⟨some (String.mk [Char.ofNat 1]), none⟩ :=
  ⟨(ctrl_letter_mapping stWS ⟨"s1", .active⟩ 97 0 rfl (by decide) rfl rfl
      (by decide) (by decide)).1,
   (ctrl_letter_mapping stWS ⟨"s1", .active⟩ 97 0 rfl (by decide) rfl rfl
      (by decide) (by decide)).2.1⟩

end VibeTunnel
